import Mathlib

set_option maxRecDepth 100000

/-!
Verification model of the pg_track_slow_queries extension
(src/pg_track_slow_queries.h, src/utils.c, src/worker.c,
src/pg_track_slow_queries.c).

Buffers, C strings and file contents are modelled as `List Nat` of byte
values.  Machine integers are modelled as `Nat`/`Int` with explicit
`% 2^32` / `% 2^64` wrapping where the C code converts between widths.
The `double`/`float` fields are modelled as exact rationals; the fixed
width printf formats are modelled with explicit decimal rounding.

The C parser reads memory without any bounds information, so reads that
fall outside the parsed buffer, and reads of stack or freed memory, are
modelled through an explicit environment `MemEnv` of arbitrary garbage
bytes.  All universally quantified theorems hold for every such
environment; concrete evaluations use the all-zero environment.
-/

/-- Number of columns, src/pg_track_slow_queries.h line 6: `#define TSQ_COLS 9`. -/
def TSQ_COLS : Nat := 9

/-- Largest `uint32` value; the C code stores `-1` into `uint32` variables. -/
def UINT32_MAX : Nat := 2 ^ 32 - 1

/-- Byte is an ASCII whitespace character in the C locale (isspace). -/
def isSpaceB (b : Nat) : Bool := b == 32 || (9 ≤ b && b ≤ 13)

/-- Byte is an ASCII decimal digit. -/
def isDigitB (b : Nat) : Bool := 48 ≤ b && b ≤ 57

/-- Byte is an ASCII hexadecimal digit (either case). -/
def isHexDigitB (b : Nat) : Bool :=
  (48 ≤ b && b ≤ 57) || (97 ≤ b && b ≤ 102) || (65 ≤ b && b ≤ 70)

/-- Numeric value of an ASCII digit byte (decimal or hexadecimal). -/
def hexDigitVal (b : Nat) : Nat :=
  if b ≤ 57 then b - 48 else if b ≤ 70 then b - 55 else b - 87

/-- Value of a digit string in the given base (most significant digit first). -/
def digitsVal (base : Nat) (ds : List Nat) : Nat :=
  ds.foldl (fun a b => base * a + hexDigitVal b) 0

/-- ASCII byte of the digit `d` (lowercase for hexadecimal digits, as %x prints). -/
def digitChar (d : Nat) : Nat := if d < 10 then 48 + d else 87 + d

/-- Greatest common divisor with explicit recursion fuel; `gcdF (a+1) a b`
computes `gcd a b` by the Euclid recursion. -/
def gcdF : Nat → Nat → Nat → Nat
  | 0, _, b => b
  | fuel + 1, a, b => if a = 0 then b else gcdF fuel (b % a) a

/-- An exact rational number in lowest terms, the model of the C `double`
and `float` values.  Every value is built through `Qx.mkn`, so equal
rationals have equal representations and structural equality is value
equality. -/
structure Qx where
  num : Int
  den : Nat
  deriving DecidableEq

/-- Normalizing constructor: the fraction `n / d` in lowest terms. -/
def Qx.mkn (n : Int) (d : Nat) : Qx :=
  if d = 0 then { num := 0, den := 1 }
  else
    let g := gcdF (n.natAbs + 1) n.natAbs d
    if g = 0 then { num := 0, den := 1 }
    else { num := n / (g : Int), den := d / g }

/-- The rational zero. -/
def Qx.zero : Qx := { num := 0, den := 1 }

/-- Little-endian decimal digits of `n`, with explicit recursion fuel.
32 digits of fuel are enough for every value below `10^32`. -/
def natDigitsAux : Nat → Nat → List Nat
  | 0, _ => []
  | fuel + 1, n => if n = 0 then [] else n % 10 :: natDigitsAux fuel (n / 10)

/-- ASCII decimal representation of `n` (at least one digit). -/
def decRepr (n : Nat) : List Nat :=
  if n = 0 then [48] else ((natDigitsAux 32 n).reverse.map digitChar)

/-- Exactly eight lowercase hexadecimal ASCII digits of `n mod 2^32`;
this is the `%08x` item header written by pgtsq_serialize_entry
(src/utils.c lines 20-39) for lengths below `2^32`. -/
def fmtHex8 (n : Nat) : List Nat :=
  ((List.range 8).reverse.map (fun i => digitChar (n % 2 ^ 32 / 16 ^ i % 16)))

/-- Zero padding of a printf `%0W...` conversion: the sign (if any) comes
first and the zeros are inserted between the sign and the digits. -/
def zeroPadSigned (width : Nat) (neg : Bool) (body : List Nat) : List Nat :=
  (if neg then [45] else []) ++
    List.replicate (width - (body.length + (if neg then 1 else 0))) 48 ++ body

/-- Round the nonnegative fraction `num / den` to the nearest natural
number, ties to even; printf's default rounding of an exactly
representable decimal value. -/
def roundHalfEvenND (num den : Nat) : Nat :=
  let n := num / den
  let r := num % den
  if 2 * r < den then n
  else if den < 2 * r then n + 1
  else if n % 2 = 0 then n else n + 1

/-- Left-pad a digit list with ASCII zeros up to `n` characters. -/
def leftPadZeros (n : Nat) (l : List Nat) : List Nat :=
  List.replicate (n - l.length) 48 ++ l

/-- Model of `%0W.PF` printf formatting of an exact rational: width
`width`, `frac` fractional digits, zero padded.  The binary double is
modelled as the exact rational it denotes; for the values produced by
this code the decimal rounding below agrees with printf's output. -/
def fmtFixed (width frac : Nat) (q : Qx) : List Nat :=
  let neg : Bool := q.num < 0
  let n : Nat := roundHalfEvenND (q.num.natAbs * 10 ^ frac) q.den
  let body : List Nat :=
    decRepr (n / 10 ^ frac) ++ [46] ++ leftPadZeros frac (decRepr (n % 10 ^ frac))
  zeroPadSigned width neg body

/-- Model of `%016li` formatting of a signed integer. -/
def fmtInt16 (v : Int) : List Nat := zeroPadSigned 16 (v < 0) (decRepr v.natAbs)

/-- Model of `%016lu` formatting of an unsigned 64-bit integer. -/
def fmtNat16 (n : Nat) : List Nat := zeroPadSigned 16 false (decRepr (n % 2 ^ 64))

/-- Contents of a C string: the bytes before the first NUL terminator. -/
def cstrTrunc (l : List Nat) : List Nat := l.takeWhile (fun b => !(b == 0))

/-- A TSQEntry telemetry record (src/pg_track_slow_queries.h lines 19-29,
together with the `appname` field that src/utils.c reads and writes).
`char *` fields are `Option` lists of bytes, `none` standing for a NULL
pointer — `palloc0` leaves every pointer field NULL.  `duration`
(double) and the hit ratio (float, source field `hitratio`) are exact
rationals; `temp_blks_written` (long) is an `Int`; `ntuples` (uint64)
is a `Nat` kept below `2^64`. -/
structure TSQEntry where
  datetime : Option (List Nat)
  duration : Qx
  username : Option (List Nat)
  appname : Option (List Nat)
  dbname : Option (List Nat)
  temp_blks_written : Int
  hitRatioQ : Qx
  ntuples : Nat
  querytxt : Option (List Nat)
  plantxt : Option (List Nat)
  deriving DecidableEq

/-- The all-zero entry produced by `palloc0(sizeof(TSQEntry))`. -/
def tsqEntry0 : TSQEntry :=
  { datetime := none, duration := Qx.zero, username := none, appname := none,
    dbname := none, temp_blks_written := 0, hitRatioQ := Qx.zero, ntuples := 0,
    querytxt := none, plantxt := none }

/-- Serialization of an entry, src/utils.c lines 16-41
(pgtsq_serialize_entry).  Ten fields are appended, each as an
8-hex-digit length header followed by the field text: datetime,
duration (`%08x%016.02f` with a constant header of 16), username,
appname, dbname, temp_blks_written (`%016li`, header 16), hit ratio
(`%010.06f`, header 10), ntuples (`%016lu`, header 16), querytxt,
plantxt.  String fields are measured with strlen, so their bytes are
truncated at the first NUL; a NULL string field would crash strlen, so
the model returns `none` for it. -/
def pgtsq_serialize_entry (e : TSQEntry) : Option (List Nat) :=
  match e.datetime, e.username, e.appname, e.dbname, e.querytxt, e.plantxt with
  | some dt, some un, some an, some dbn, some qt, some pl =>
    some (fmtHex8 (cstrTrunc dt).length ++ cstrTrunc dt ++
          fmtHex8 16 ++ fmtFixed 16 2 e.duration ++
          fmtHex8 (cstrTrunc un).length ++ cstrTrunc un ++
          fmtHex8 (cstrTrunc an).length ++ cstrTrunc an ++
          fmtHex8 (cstrTrunc dbn).length ++ cstrTrunc dbn ++
          fmtHex8 16 ++ fmtInt16 e.temp_blks_written ++
          fmtHex8 10 ++ fmtFixed 10 6 e.hitRatioQ ++
          fmtHex8 16 ++ fmtNat16 e.ntuples ++
          fmtHex8 (cstrTrunc qt).length ++ cstrTrunc qt ++
          fmtHex8 (cstrTrunc pl).length ++ cstrTrunc pl)
  | _, _, _, _, _, _ => none

/-- Memory environment for the parser.  The C parsing functions receive a
bare `char *` with no length, so the model must give a value to every
byte the C code may read outside the buffer: `heap i` is the byte
behind index `i` when `i` is past the end of the buffer; `stack` holds
the bytes that follow the 8 copied header characters on the stack
(`char header[9]` is never NUL-terminated by `strncpy`, so `strtol`
can run into them); `freedLen` and `freedData` are the values the
caller observes through its dangling pointer after pgtsq_parse_item's
failure branch has freed the item. -/
structure MemEnv where
  heap : Nat → Nat
  stack : List Nat
  freedLen : Nat
  freedData : List Nat

/-- The all-zero memory environment used for concrete evaluations. -/
def memEnv0 : MemEnv :=
  { heap := fun _ => 0, stack := [], freedLen := 0, freedData := [] }

/-- Read one byte at index `i`; the flag records whether the read was out
of bounds of the buffer. -/
def memByte (O : MemEnv) (buf : List Nat) (i : Nat) : Nat × Bool :=
  if h : i < buf.length then (buf.get ⟨i, h⟩, false) else (O.heap i, true)

/-- Read `n` consecutive bytes starting at `s`; the flag records whether
any read was out of bounds. -/
def readBytes (O : MemEnv) (buf : List Nat) (s : Nat) : Nat → List Nat × Bool
  | 0 => ([], false)
  | n + 1 =>
    let b := memByte O buf s
    let r := readBytes O buf (s + 1) n
    (b.1 :: r.1, b.2 || r.2)

/-- Model of `strnlen(buf + s, n)`: the number of bytes before the first
NUL, scanning at most `n` bytes; the flag records out-of-bounds reads. -/
def strnlenFrom (O : MemEnv) (buf : List Nat) (s : Nat) : Nat → Nat × Bool
  | 0 => (0, false)
  | n + 1 =>
    let b := memByte O buf s
    if b.1 = 0 then (0, b.2)
    else
      let r := strnlenFrom O buf (s + 1) n
      (r.1 + 1, b.2 || r.2)

/-- Result of the strtol model: the returned long, and whether glibc set
errno to ERANGE (the only errno strtol sets for a valid base). -/
structure StrtolR where
  val : Int
  overflow : Bool

/-- Model of glibc `strtol(s, NULL, base)` for base 10 or 16: skip
whitespace, optional sign, for base 16 an optional 0x/0X prefix when a
hexadecimal digit follows, then the maximal digit run.  An empty digit
run yields 0 with errno untouched; a value outside the 64-bit long
range yields the saturated bound with errno = ERANGE. -/
def strtolGen (hex : Bool) (s : List Nat) : StrtolR :=
  let s1 := s.dropWhile isSpaceB
  let sgn : Bool × List Nat :=
    match s1 with
    | 43 :: r => (false, r)
    | 45 :: r => (true, r)
    | _ => (false, s1)
  let s3 : List Nat :=
    if hex then
      match sgn.2 with
      | 48 :: x :: r =>
        if (x == 120 || x == 88) &&
            (match r with | d :: _ => isHexDigitB d | [] => false) then r
        else sgn.2
      | _ => sgn.2
    else sgn.2
  let ds := s3.takeWhile (if hex then isHexDigitB else isDigitB)
  let m : Nat := digitsVal (if hex then 16 else 10) ds
  let lim : Nat := if sgn.1 then 2 ^ 63 else 2 ^ 63 - 1
  if lim < m then
    { val := if sgn.1 then -(2 ^ 63 : Int) else ((2 ^ 63 - 1 : Nat) : Int),
      overflow := true }
  else
    { val := if sgn.1 then -(m : Int) else (m : Int), overflow := false }

/-- Conversion of a C long to uint32: two's complement wrap. -/
def toUInt32n (v : Int) : Nat := (v % (2 ^ 32 : Int)).toNat

/-- Conversion of a C long to int: two's complement wrap to 32 bits. -/
def wrap32 (v : Int) : Int := (v + 2 ^ 31) % 2 ^ 32 - 2 ^ 31

/-- Model of `atoi`, which glibc implements as `(int) strtol(s, 0, 10)`. -/
def atoiInt (s : List Nat) : Int := wrap32 (strtolGen false s).val

/-- Model of `atof` on the exact rational level: whitespace, optional
sign, integer digits, optional fraction, optional decimal exponent.
Hexadecimal floats and inf/nan inputs are not modelled; no input in
this development uses them.  An input with no digits yields 0. -/
def atofQ (s : List Nat) : Qx :=
  let s1 := s.dropWhile isSpaceB
  let sgn : Bool × List Nat :=
    match s1 with
    | 43 :: r => (false, r)
    | 45 :: r => (true, r)
    | _ => (false, s1)
  let ip := sgn.2.takeWhile isDigitB
  let rest := sgn.2.drop ip.length
  let fp : List Nat :=
    match rest with
    | 46 :: r => r.takeWhile isDigitB
    | _ => []
  let rest2 : List Nat :=
    match rest with
    | 46 :: r => r.drop fp.length
    | _ => rest
  let ex : Int :=
    if ip.length + fp.length = 0 then 0
    else
      match rest2 with
      | 101 :: r2 | 69 :: r2 =>
        let esgn : Bool × List Nat :=
          match r2 with
          | 43 :: r3 => (false, r3)
          | 45 :: r3 => (true, r3)
          | _ => (false, r2)
        let eds := esgn.2.takeWhile isDigitB
        if eds = [] then 0
        else if esgn.1 then -(digitsVal 10 eds : Int) else (digitsVal 10 eds : Int)
      | _ => 0
  let mnum : Nat :=
    (digitsVal 10 ip * 10 ^ fp.length + digitsVal 10 fp) *
      (if 0 ≤ ex then 10 ^ ex.toNat else 1)
  let mden : Nat := 10 ^ fp.length * (if ex < 0 then 10 ^ (-ex).toNat else 1)
  Qx.mkn (if sgn.1 then -(mnum : Int) else (mnum : Int)) mden

/-- The item as seen by the caller of pgtsq_parse_item.  `failed` records
that the errno branch (src/utils.c lines 161-167) ran; the caller
cannot observe it, because the function received the item pointer by
value, and then reads `length` and `data` through its dangling
pointer, modelled by the `freedLen`/`freedData` garbage of `MemEnv`.
`oob` records whether any memory read went past the buffer end. -/
structure TSQItemView where
  failed : Bool
  length : Nat
  data : List Nat
  oob : Bool
  deriving DecidableEq

/-- Model of pgtsq_parse_item (src/utils.c lines 152-170).  `strncpy`
copies 8 bytes from `buffer + p` into `char header[9]` without writing
`header[8]`, so when none of the 8 bytes is NUL the string strtol sees
continues into the adjacent stack bytes.  On errno the item is freed
(the caller keeps its dangling pointer); otherwise
`item->data = pnstrdup(buffer + p + 8, msg_length)` (which stops at a
NUL like strnlen) and `item->length = msg_length`. -/
def pgtsq_parse_item (O : MemEnv) (buf : List Nat) (p : Nat) : TSQItemView :=
  let hdr := readBytes O buf p 8
  let cstr : List Nat :=
    if hdr.1.any (fun b => b == 0) then hdr.1.takeWhile (fun b => !(b == 0))
    else hdr.1 ++ O.stack.takeWhile (fun b => !(b == 0))
  let r := strtolGen true cstr
  if r.overflow then
    { failed := true, length := O.freedLen, data := O.freedData, oob := hdr.2 }
  else
    let msg_length := toUInt32n r.val
    let k := strnlenFrom O buf (p + 8) msg_length
    let d := readBytes O buf (p + 8) k.1
    { failed := false, length := msg_length, data := d.1,
      oob := hdr.2 || k.2 || d.2 }

/-- In PostgreSQL `palloc` reports an out-of-memory error with ereport
(ERROR) and never returns NULL, so the `palloc(...) == NULL` guards in
pgtsq_check_row and pgtsq_parse_row (src/utils.c lines 181, 212) are
never taken. -/
def palloc_fails : Bool := false

/-- The `item == NULL` tests in pgtsq_check_row and pgtsq_parse_row
(src/utils.c lines 192, 224) test the caller's own pointer variable,
but pgtsq_parse_item received that pointer by value and can only null
its local copy; the pointer the caller tests is the non-NULL result of
palloc, so the condition is constantly false. -/
def caller_item_is_null : Bool := false

/-- Result of pgtsq_check_row: the returned boolean and whether any
memory read went out of bounds. -/
structure TSQCheckView where
  ok : Bool
  oob : Bool
  deriving DecidableEq

/-- The `for (c = 1; c <= TSQ_COLS; c++)` loop of pgtsq_check_row,
src/utils.c lines 188-197: parse an item, test the (unchanged) item
pointer, advance the cursor by `item->length + 8`. -/
def checkRowGo (O : MemEnv) (row : List Nat) : Nat → Nat → Bool → TSQCheckView
  | 0, _, ob => { ok := true, oob := ob }
  | c + 1, p, ob =>
    let item := pgtsq_parse_item O row p
    if caller_item_is_null then { ok := false, oob := ob || item.oob }
    else checkRowGo O row c (p + item.length + 8) (ob || item.oob)

/-- Model of pgtsq_check_row (src/utils.c lines 175-200). -/
def pgtsq_check_row (O : MemEnv) (row : List Nat) : TSQCheckView :=
  if palloc_fails then { ok := false, oob := false }
  else checkRowGo O row TSQ_COLS 0 false

/-- The switch of pgtsq_parse_row (src/utils.c lines 229-278): column
`c` receives the parsed item's data; columns 2, 6, 7, 8 convert with
atof/atoi.  `ntuples` is `(uint64)` of the sign-extended int returned
by atoi.  The switch has a `case 10` for plantxt, but the enclosing
loop only reaches `c = TSQ_COLS = 9`. -/
def assignCol (c : Nat) (data : List Nat) (e : TSQEntry) : TSQEntry :=
  match c with
  | 1 => { e with datetime := some data }
  | 2 => { e with duration := atofQ data }
  | 3 => { e with username := some data }
  | 4 => { e with appname := some data }
  | 5 => { e with dbname := some data }
  | 6 => { e with temp_blks_written := atoiInt data }
  | 7 => { e with hitRatioQ := atofQ data }
  | 8 => { e with ntuples := ((atoiInt data) % (2 ^ 64 : Int)).toNat }
  | 9 => { e with querytxt := some data }
  | 10 => { e with plantxt := some data }
  | _ => e

/-- Result of pgtsq_parse_row: the returned boolean, the entry it filled
in, and whether any memory read went out of bounds. -/
structure TSQParseView where
  ok : Bool
  entry : TSQEntry
  oob : Bool
  deriving DecidableEq

/-- The `for (c = 1; c <= TSQ_COLS; c++)` loop of pgtsq_parse_row,
src/utils.c lines 220-279. -/
def parseRowGo (O : MemEnv) (row : List Nat) :
    Nat → Nat → Nat → TSQEntry → Bool → TSQParseView
  | 0, _, _, e, ob => { ok := true, entry := e, oob := ob }
  | rem + 1, c, p, e, ob =>
    let item := pgtsq_parse_item O row p
    if caller_item_is_null then { ok := false, entry := e, oob := ob || item.oob }
    else parseRowGo O row rem (c + 1) (p + item.length + 8)
      (assignCol c item.data e) (ob || item.oob)

/-- Model of pgtsq_parse_row (src/utils.c lines 206-282); the entry
starts as the all-zero result of `palloc0`. -/
def pgtsq_parse_row (O : MemEnv) (row : List Nat) : TSQParseView :=
  if palloc_fails then { ok := false, entry := tsqEntry0, oob := false }
  else parseRowGo O row TSQ_COLS 1 0 tsqEntry0 false

/-! ## Log Store: pgtsq_store_row, pgtsq_truncate_file -/

/-- Lock operations on the shared `pgtsqss->lock`. -/
inductive LockEv
  | acqExcl
  | acqShared
  | rel
  deriving DecidableEq

/-- Log messages the Log Store code can emit with ereport(LOG). -/
inductive LogEv
  | noMem
  | maxFileSize
  | writeError
  deriving DecidableEq

/-- Outcome of one fwrite call: `ok` means all bytes were written and the
call returned the full count; otherwise `written` bytes (a prefix,
possibly zero) reached the file before the failure. -/
structure WriteOut where
  ok : Bool
  written : Nat
  deriving DecidableEq

/-- The input/output outcomes of one pgtsq_store_row execution:
whether palloc0 succeeds (in PostgreSQL it either succeeds or throws,
so the NULL branch is dead, but the path is kept), whether
AllocateFile succeeds, and the outcomes of the three fwrite calls
(compressed size, raw size, payload). -/
structure StoreEnv where
  allocOk : Bool
  openOk : Bool
  w1 : WriteOut
  w2 : WriteOut
  w3 : WriteOut
  deriving DecidableEq

/-- Result of pgtsq_store_row: the file contents after the call, the
returned uint32, the lock trace, and the emitted log messages. -/
structure StoreRes where
  file : List Nat
  ret : Nat
  locks : List LockEv
  logs : List LogEv
  deriving DecidableEq

/-- Little-endian bytes of a 32-bit value, as fwrite writes a `uint32`
object on the x86-64 target. -/
def u32le (n : Nat) : List Nat :=
  [n % 256, n / 256 % 256, n / 256 ^ 2 % 256, n / 256 ^ 3 % 256]

/-- The `buff_size` value after the compression block of pgtsq_store_row
(src/utils.c lines 48-71): `buff_size` starts as `(uint32) -1`; with
compression on it becomes the pglz_compress result (`compressOut`
models that result, `none` for the -1 no-gain return); afterwards a
value of `(uint32) -1` is replaced by 0. -/
def storeBuffSize (compressOut : Option (List Nat)) (compression : Bool) : Nat :=
  if compression then
    match compressOut with
    | some c => if c.length = UINT32_MAX then 0 else c.length
    | none => 0
  else 0

/-- The payload bytes the third fwrite writes: the raw row when
`buff_size == 0`, otherwise the compressed buffer (src/utils.c lines
113-125). -/
def storePayload (compressOut : Option (List Nat)) (compression : Bool)
    (row : List Nat) : List Nat :=
  if storeBuffSize compressOut compression = 0 then row else compressOut.getD []

/-- The `row_size` computed at src/utils.c lines 89-96: the 8-byte header
plus the payload size that will be written. -/
def storeRowSize (compressOut : Option (List Nat)) (compression : Bool)
    (row : List Nat) : Int :=
  8 + (if 0 < storeBuffSize compressOut compression
       then (storeBuffSize compressOut compression : Int)
       else (row.length : Int))

/-- Model of pgtsq_store_row (src/utils.c lines 46-146).  The row buffer
is passed together with its length, so `row` here is exactly the
`length` bytes the callers pass.  Steps: optional compression; acquire
the exclusive lock; open the storage file in append mode (glibc
positions an append-mode stream at end of file, so `ftello` returns
the current size); if `max_file_size_kb != -1` and the current size
plus `row_size` would exceed `max_file_size_kb * 1024`, log, release
and return `(uint32) -1` without writing; otherwise write the
compressed size, the raw size and the payload, going to `write_error`
(log, release, return `(uint32) -1`) when any fwrite falls short.
The lock is released on the `end` path and on every `write_error`
path; only the early palloc-failure return never acquired it. -/
def pgtsq_store_row (env : StoreEnv) (compressOut : Option (List Nat))
    (file row : List Nat) (compression : Bool) (max_file_size_kb : Int) :
    StoreRes :=
  if compression && !env.allocOk then
    { file := file, ret := UINT32_MAX, locks := [], logs := [LogEv.noMem] }
  else if !env.openOk then
    { file := file, ret := UINT32_MAX, locks := [LockEv.acqExcl, LockEv.rel],
      logs := [LogEv.writeError] }
  else if max_file_size_kb ≠ -1 ∧
      (file.length : Int) + storeRowSize compressOut compression row >
        max_file_size_kb * 1024 then
    { file := file, ret := UINT32_MAX, locks := [LockEv.acqExcl, LockEv.rel],
      logs := [LogEv.maxFileSize] }
  else if !env.w1.ok then
    { file := file ++ (u32le (storeBuffSize compressOut compression)).take env.w1.written,
      ret := UINT32_MAX, locks := [LockEv.acqExcl, LockEv.rel],
      logs := [LogEv.writeError] }
  else if !env.w2.ok then
    { file := file ++ u32le (storeBuffSize compressOut compression) ++
        (u32le (row.length % 2 ^ 32)).take env.w2.written,
      ret := UINT32_MAX, locks := [LockEv.acqExcl, LockEv.rel],
      logs := [LogEv.writeError] }
  else if !env.w3.ok then
    { file := file ++ u32le (storeBuffSize compressOut compression) ++
        u32le (row.length % 2 ^ 32) ++
        (storePayload compressOut compression row).take env.w3.written,
      ret := UINT32_MAX, locks := [LockEv.acqExcl, LockEv.rel],
      logs := [LogEv.writeError] }
  else
    { file := file ++ u32le (storeBuffSize compressOut compression) ++
        u32le (row.length % 2 ^ 32) ++ storePayload compressOut compression row,
      ret := storeBuffSize compressOut compression,
      locks := [LockEv.acqExcl, LockEv.rel], logs := [] }

/-- One Append call of a sequence: its I/O outcomes, its compression
result, its row and its compression flag. -/
structure CallSpec where
  env : StoreEnv
  compressOut : Option (List Nat)
  row : List Nat
  compression : Bool

/-- File contents after a sequence of pgtsq_store_row calls with a fixed
configured `max_file_size_kb`. -/
def appendMany (max_file_size_kb : Int) (calls : List CallSpec)
    (file : List Nat) : List Nat :=
  calls.foldl
    (fun f c =>
      (pgtsq_store_row c.env c.compressOut f c.row c.compression
        max_file_size_kb).file)
    file

/-- Result of pgtsq_truncate_file: the file contents afterwards and
whether the ereport(ERROR) exception was raised. -/
structure TruncRes where
  file : List Nat
  raisedError : Bool
  locks : List LockEv
  deriving DecidableEq

/-- Model of pgtsq_truncate_file (src/utils.c lines 287-301): take the
exclusive lock, reopen the storage file in overwrite mode (truncating
it to empty on success), release the lock, and raise ERROR when the
open failed (leaving the file as it was). -/
def pgtsq_truncate_file (openOk : Bool) (file : List Nat) : TruncRes :=
  if openOk then
    { file := [], raisedError := false, locks := [LockEv.acqExcl, LockEv.rel] }
  else
    { file := file, raisedError := true, locks := [LockEv.acqExcl, LockEv.rel] }

/-! ## Reader: pg_track_slow_queries_internal -/

/-- How the scan of pg_track_slow_queries_internal ends.  `cleanEof` is
the normal exit of the `while (fread(...) == 1)` loop; `readErr`,
`decompressErr` and `parseErr` are the read_error / decompress_error /
parse_error jumps, which log, clean up and return, keeping the rows
already materialized into the tuplestore; `datetimeErr` is an
ereport(ERROR) raised by timestamptz_in in the loop body, which
unwinds past the whole function and aborts the query, discarding its
result set; `nullCrash` is the crash of strlen on a NULL pointer
inside CStringGetTextDatum or timestamptz_in.  On the last two the
function never returns to its caller. -/
inductive ScanEnd
  | cleanEof
  | readErr
  | decompressErr
  | parseErr
  | datetimeErr
  | nullCrash
  deriving DecidableEq

/-- Whether control returns to the caller with this scan end:
ereport(ERROR) unwinds past the function (the shared lock is then
released by error recovery, not by this function) and the strlen(NULL)
crash kills the process. -/
def scanReturns : ScanEnd → Bool
  | ScanEnd.datetimeErr => false
  | ScanEnd.nullCrash => false
  | _ => true

/-- Model of `fread(&x, sizeof(uint32), 1, file)` on the remaining bytes:
succeeds only when four bytes are available, returning the
little-endian value and the rest. -/
def readU32 : List Nat → Option (Nat × List Nat)
  | b0 :: b1 :: b2 :: b3 :: rest =>
    some (b0 + 256 * b1 + 256 ^ 2 * b2 + 256 ^ 3 * b3, rest)
  | _ => none

/-- Outcome of projecting one decoded entry into the output tuple. -/
inductive ProjRes
  | ok
  | datetimeErr
  | nullCrash
  deriving DecidableEq

/-- The per-row projection of pg_track_slow_queries_internal
(src/pg_track_slow_queries.c lines 503-516), in source order:
timestamptz_in on the datetime C string — a NULL pointer crashes its
strlen, and a string the PostgreSQL datetime parser rejects raises
ereport(ERROR); that parser is external to this repository and is
modelled by the oracle `tsAccept` — then CStringGetTextDatum (strlen,
a crash on NULL) on username, dbname, querytxt and plantxt.  The
duration, temp_blks_written, hitratio and ntuples columns are
projected by pure value casts that cannot fail. -/
def projectEntry (tsAccept : List Nat → Bool) (e : TSQEntry) : ProjRes :=
  match e.datetime with
  | none => ProjRes.nullCrash
  | some dt =>
    if tsAccept dt then
      match e.username with
      | none => ProjRes.nullCrash
      | some _ =>
        match e.dbname with
        | none => ProjRes.nullCrash
        | some _ =>
          match e.querytxt with
          | none => ProjRes.nullCrash
          | some _ =>
            match e.plantxt with
            | none => ProjRes.nullCrash
            | some _ => ProjRes.ok
    else ProjRes.datetimeErr

/-- The scan loop of pg_track_slow_queries_internal (src/
pg_track_slow_queries.c lines 468-525).  Per frame: read the
compressed size (the loop exits cleanly if the four bytes are not
there); read the raw size (read_error if missing); for a compressed
frame read `row_c_size` payload bytes (read_error if short) and
decompress (`decomp` models pglz_decompress and returns the
decompressed buffer exactly when the C call returns `row_size`); for a
raw frame `fread(buff, row_size, 1)` fails — read_error — when
`row_size` is 0 or the bytes are missing; parse the row; project the
entry into the output tuple (timestamptz_in and the
CStringGetTextDatum calls, see `projectEntry`), aborting the whole
scan on an ereport(ERROR) or a NULL-pointer crash; on success
tuplestore_putvalues materializes the row and the loop continues.
The fuel argument only forces termination; each iteration consumes at
least 4 bytes, so `file.length + 1` fuel is never exhausted. -/
def readLoop (O : MemEnv) (tsAccept : List Nat → Bool)
    (decomp : List Nat → Nat → Option (List Nat)) :
    Nat → List Nat → List TSQEntry → List TSQEntry × ScanEnd
  | 0, _, acc => (acc.reverse, ScanEnd.readErr)
  | fuel + 1, rem, acc =>
    match readU32 rem with
    | none => (acc.reverse, ScanEnd.cleanEof)
    | some (row_c_size, rem1) =>
      match readU32 rem1 with
      | none => (acc.reverse, ScanEnd.readErr)
      | some (row_size, rem2) =>
        if 0 < row_c_size then
          if rem2.length < row_c_size then (acc.reverse, ScanEnd.readErr)
          else
            match decomp (rem2.take row_c_size) row_size with
            | none => (acc.reverse, ScanEnd.decompressErr)
            | some buf =>
              if (pgtsq_parse_row O buf).ok then
                match projectEntry tsAccept (pgtsq_parse_row O buf).entry with
                | ProjRes.ok =>
                  readLoop O tsAccept decomp fuel (rem2.drop row_c_size)
                    ((pgtsq_parse_row O buf).entry :: acc)
                | ProjRes.datetimeErr => (acc.reverse, ScanEnd.datetimeErr)
                | ProjRes.nullCrash => (acc.reverse, ScanEnd.nullCrash)
              else (acc.reverse, ScanEnd.parseErr)
        else
          if row_size = 0 ∨ rem2.length < row_size then
            (acc.reverse, ScanEnd.readErr)
          else
            if (pgtsq_parse_row O (rem2.take row_size)).ok then
              match projectEntry tsAccept
                  (pgtsq_parse_row O (rem2.take row_size)).entry with
              | ProjRes.ok =>
                readLoop O tsAccept decomp fuel (rem2.drop row_size)
                  ((pgtsq_parse_row O (rem2.take row_size)).entry :: acc)
              | ProjRes.datetimeErr => (acc.reverse, ScanEnd.datetimeErr)
              | ProjRes.nullCrash => (acc.reverse, ScanEnd.nullCrash)
            else (acc.reverse, ScanEnd.parseErr)

/-- Result of the reader: the rows materialized into the tuplestore, how
the scan ended, whether the function returns to its caller at all
(false when timestamptz_in raised ERROR or strlen(NULL) crashed; the
materialized rows are then never delivered), and the lock trace. -/
structure ReadRes where
  rows : List TSQEntry
  stop : ScanEnd
  returns : Bool
  locks : List LockEv
  deriving DecidableEq

/-- Model of pg_track_slow_queries_internal (src/pg_track_slow_queries.c
lines 418-559): shared lock, scan all frames projecting each decoded
entry into an output row, release.  The release at line 527 or in the
fail label runs only when the function returns; an ereport(ERROR)
leaves it to PostgreSQL error recovery and a crash never reaches
it. -/
def pg_track_slow_queries_internal (O : MemEnv) (tsAccept : List Nat → Bool)
    (decomp : List Nat → Nat → Option (List Nat)) (file : List Nat) : ReadRes :=
  let r := readLoop O tsAccept decomp (file.length + 1) file []
  { rows := r.1, stop := r.2, returns := scanReturns r.2,
    locks := if scanReturns r.2 then [LockEv.acqShared, LockEv.rel]
             else [LockEv.acqShared] }

/-- An uncompressed Record Frame as pgtsq_store_row writes it:
`compressed_length = 0`, `raw_length`, payload. -/
def frameBytes (payload : List Nat) : List Nat :=
  u32le 0 ++ u32le payload.length ++ payload

/-! ## Collector Worker: pgtsq_worker -/

/-- Observable events of the collector worker loop (src/worker.c lines
55-104): entering a new select round, the SIGTERM handler setting
`got_sigterm`, receiving a datagram, handing a datagram to
pgtsq_store_row, and the final exit of the `while (!got_sigterm)`
loop. -/
inductive WEv
  | select
  | sigterm
  | recvMsg (m : List Nat)
  | storeRow (m : List Nat)
  | exit
  deriving DecidableEq

/-- What one select round of the worker does.  `timeout` is a select
timeout with nothing queued; `sigDuringSelect` is a SIGTERM delivered
while blocked in select (select fails with EINTR and nothing is
drained); `ready msgs sigAt` is a readable socket whose queue holds
`msgs`, with a SIGTERM delivered just before the `sigAt`-th recv call
(or after the whole drain when `sigAt` is the queue length). -/
inductive WRound
  | timeout
  | sigDuringSelect
  | ready (msgs : List (List Nat)) (sigAt : Option Nat)

/-- Decrement of the pending-signal position as the drain advances. -/
def sigDec : Option Nat → Option Nat
  | none => none
  | some 0 => none
  | some (k + 1) => some k

/-- The inner drain loop of the worker (src/worker.c lines 66-81):
`while ((n = recv(...)) > 0)` receives every queued datagram — the
loop condition never consults `got_sigterm` — and for each one calls
pgtsq_check_row, then pgtsq_store_row on success or ereport(LOG) on
failure.  The events record the flag write at the scheduled delivery
point. -/
def pgtsq_worker_drain (O : MemEnv) :
    List (List Nat) → Option Nat → List WEv
  | [], sigAt => if sigAt.isSome then [WEv.sigterm] else []
  | m :: rest, sigAt =>
    (if sigAt = some 0 then [WEv.sigterm] else []) ++
      WEv.recvMsg m ::
        ((if (pgtsq_check_row O m).ok then [WEv.storeRow m] else []) ++
          pgtsq_worker_drain O rest (sigDec sigAt))

/-- Whether the round leaves `got_sigterm` set. -/
def roundSetsFlag : WRound → Bool
  | WRound.timeout => false
  | WRound.sigDuringSelect => true
  | WRound.ready _ sigAt => sigAt.isSome

/-- Model of the worker main loop, src/worker.c lines 55-104: while
`got_sigterm` is not set, run one select round; a SIGTERM during
select interrupts it (EINTR, `retval < 0`, nothing drained); a ready
socket is drained completely by the inner loop; then control returns
to the `while (!got_sigterm)` test.  The schedule lists the outcome of
each successive select; an exhausted schedule means the worker is
still running with no further activity to observe.  The SIGHUP/reload
branch only refreshes the GUC copies and is not observable here. -/
def pgtsq_worker_run (O : MemEnv) : List WRound → Bool → List WEv
  | _, true => [WEv.exit]
  | [], false => []
  | r :: rest, false =>
    WEv.select ::
      match r with
      | WRound.timeout => pgtsq_worker_run O rest false
      | WRound.sigDuringSelect => WEv.sigterm :: pgtsq_worker_run O rest true
      | WRound.ready msgs sigAt =>
        pgtsq_worker_drain O msgs sigAt ++ pgtsq_worker_run O rest (roundSetsFlag (WRound.ready msgs sigAt))

/-- Events strictly after the first `sigterm` event of a trace. -/
def eventsAfterSigterm : List WEv → List WEv
  | [] => []
  | WEv.sigterm :: rest => rest
  | _ :: rest => eventsAfterSigterm rest

/-- Event is a `select`. -/
def isSel : WEv → Bool
  | WEv.select => true
  | _ => false

/-- Event is a `recvMsg`. -/
def isRecv : WEv → Bool
  | WEv.recvMsg _ => true
  | _ => false

/-- Event is a `sigterm`. -/
def isSig : WEv → Bool
  | WEv.sigterm => true
  | _ => false

/-- No `select` event occurs after the first `sigterm` event. -/
def noSelAfterSig : List WEv → Bool
  | [] => true
  | WEv.sigterm :: rest => rest.all (fun e => !(isSel e))
  | _ :: rest => noSelAfterSig rest

/-! ## Specification-side definitions -/

/-- The structural well-formedness check in the words of the
specification (sections 4.1 and 4.4): starting from cursor 0, `cols`
times read an 8-character header that must lie inside the buffer and
consist of hexadecimal digits (a non-hexadecimal header is a
FormatError), take its value as the field length, and require header
and field to lie inside the buffer (otherwise the cursor runs out of
bounds: a TruncatedRecord).  This is the property the datagram check
and the decoder are claimed to enforce; it is deliberately written
from the specification, not from src/utils.c, for comparison with
pgtsq_check_row. -/
def specWellFormedGo (buf : List Nat) : Nat → Nat → Bool
  | 0, _ => true
  | c + 1, p =>
    if p + 8 ≤ buf.length then
      if ((buf.drop p).take 8).all isHexDigitB then
        if p + 8 + digitsVal 16 ((buf.drop p).take 8) ≤ buf.length then
          specWellFormedGo buf c (p + 8 + digitsVal 16 ((buf.drop p).take 8))
        else false
      else false
    else false

/-- A row is structurally well formed for the schema's `TSQ_COLS` fields
in the sense of the specification. -/
def spec_wellformed_row (buf : List Nat) : Bool :=
  specWellFormedGo buf TSQ_COLS 0

/-! ## Concrete inputs used in the closed theorems -/

/-- A fully populated telemetry entry: datetime "D", duration 12.5 ms,
username "u", appname "a", dbname "d", 3 temp blocks, hit ratio 87.5,
42 tuples, query text "q", plan text the two bytes of an empty JSON
object. -/
def exEntry : TSQEntry :=
  { datetime := some [68], duration := Qx.mkn 25 2, username := some [117],
    appname := some [97], dbname := some [100], temp_blks_written := 3,
    hitRatioQ := Qx.mkn 175 2, ntuples := 42, querytxt := some [113],
    plantxt := some [123, 125] }

/-- The eight ASCII bytes of "0000000a": a row whose first header
declares a 10-byte field, but the buffer ends right after the
header. -/
def mBad : List Nat := [48, 48, 48, 48, 48, 48, 48, 97]

/-- Store I/O outcomes with every operation succeeding. -/
def envOk : StoreEnv :=
  { allocOk := true, openOk := true, w1 := { ok := true, written := 0 },
    w2 := { ok := true, written := 0 }, w3 := { ok := true, written := 0 } }

/-- A decompression oracle that always fails; the concrete files in the
closed theorems contain only uncompressed frames, so it is never
consulted. -/
def decomp0 : List Nat → Nat → Option (List Nat) := fun _ _ => none

/-- A timestamp-input oracle under which timestamptz_in accepts every
string; projecting a decoded row then runs on to the NULL plantxt. -/
def tsAcceptAll : List Nat → Bool := fun _ => true

/-- A timestamp-input oracle under which timestamptz_in rejects every
string, as the real parser does on the garbage datetime fields the
concrete inputs decode to (the empty string, which timestamptz_in
rejects with ereport ERROR). -/
def tsRejectAll : List Nat → Bool := fun _ => false

/-- A worker schedule with a single ready round: two datagrams queued and
SIGTERM delivered after select returns, just before the first recv. -/
def sched0 : List WRound := [WRound.ready [[49], [50]] (some 0)]

/-- One uncompressed append of the single byte "A" with all I/O
succeeding. -/
def demoCall : CallSpec :=
  { env := envOk, compressOut := none, row := [65], compression := false }

/-! ## Helper lemmas -/

/-- The loop of pgtsq_check_row always runs to completion and returns
true: the `item == NULL` test examines the caller's unchanged pointer. -/
theorem checkRowGo_ok (O : MemEnv) (row : List Nat) :
    ∀ c p ob, (checkRowGo O row c p ob).ok = true := by
  intro c
  induction c with
  | zero => intro p ob; rfl
  | succ n ih =>
    intro p ob
    simp only [checkRowGo, caller_item_is_null, if_false, Bool.false_eq_true]
    exact ih _ _

/-- The loop of pgtsq_parse_row always runs to completion and returns
true. -/
theorem parseRowGo_ok (O : MemEnv) (row : List Nat) :
    ∀ rem c p e ob, (parseRowGo O row rem c p e ob).ok = true := by
  intro rem
  induction rem with
  | zero => intro c p e ob; rfl
  | succ n ih =>
    intro c p e ob
    simp only [parseRowGo, caller_item_is_null, if_false, Bool.false_eq_true]
    exact ih _ _ _ _

/-- pgtsq_check_row returns true on every input. -/
theorem pgtsq_check_row_ok (O : MemEnv) (row : List Nat) :
    (pgtsq_check_row O row).ok = true := by
  simp only [pgtsq_check_row, palloc_fails, if_false, Bool.false_eq_true]
  exact checkRowGo_ok O row TSQ_COLS 0 false

/-- pgtsq_parse_row returns true on every input. -/
theorem pgtsq_parse_row_ok (O : MemEnv) (row : List Nat) :
    (pgtsq_parse_row O row).ok = true := by
  simp only [pgtsq_parse_row, palloc_fails, if_false, Bool.false_eq_true]
  exact parseRowGo_ok O row TSQ_COLS 1 0 tsqEntry0 false

/-! ## Claim theorems -/

/-- C10.  For every input row buffer (memory allocation always succeeds
in PostgreSQL: palloc reports errors instead of returning NULL),
pgtsq_check_row returns true and pgtsq_parse_row returns true, for
every memory environment: pgtsq_parse_item's failure branch frees and
nulls only its by-value copy of the item pointer, so the `item ==
NULL` tests in both callers can never observe the failure and no
input is ever reported as malformed. -/
theorem c10_parsers_always_accept (O : MemEnv) (row : List Nat) :
    (pgtsq_check_row O row).ok = true ∧ (pgtsq_parse_row O row).ok = true :=
  ⟨pgtsq_check_row_ok O row, pgtsq_parse_row_ok O row⟩

/-- C1.  Decoding the buffer produced by encoding an entry does not
return the entry: pgtsq_serialize_entry writes ten length-prefixed
fields, but the loop of pgtsq_parse_row only runs `TSQ_COLS = 9`
iterations, so its `case 10` (plantxt) is dead code and the decoded
entry has a NULL plantxt.  The first nine fields (including the
rendered numerics) do round-trip; the decoded entry differs from the
input exactly in plantxt. -/
theorem c1_roundtrip_drops_plantxt :
    (pgtsq_serialize_entry exEntry).map
        (fun r => (pgtsq_parse_row memEnv0 r).entry)
      = some { exEntry with plantxt := none } ∧
    exEntry.plantxt = some [123, 125] ∧
    some { exEntry with plantxt := none } ≠ some exEntry := by decide

/-- C3.  The decoder does not bound-check the cursor: on the 8-byte
buffer "0000000a" (whose header declares a 10-byte field),
pgtsq_parse_item reads past the end of the buffer and reports no
failure, and pgtsq_check_row walks all nine columns through
out-of-bounds reads and returns true; there is no truncated-record
error path at all. -/
theorem c3_decoder_reads_out_of_bounds :
    (pgtsq_parse_item memEnv0 mBad 0).failed = false ∧
    (pgtsq_parse_item memEnv0 mBad 0).oob = true ∧
    (pgtsq_check_row memEnv0 mBad).ok = true ∧
    (pgtsq_check_row memEnv0 mBad).oob = true := by decide

/-- C4.  The malformed datagram "0000000a" (its cursor runs out of
bounds, so the specification's structural check rejects it) passes
the worker's pgtsq_check_row guard and is handed to pgtsq_store_row,
which writes it into the Log Store as a frame. -/
theorem c4_malformed_datagram_stored :
    spec_wellformed_row mBad = false ∧
    (pgtsq_check_row memEnv0 mBad).ok = true ∧
    pgtsq_worker_drain memEnv0 [mBad] none
      = [WEv.recvMsg mBad, WEv.storeRow mBad] ∧
    (pgtsq_store_row envOk none [] mBad false (-1)).file
      = u32le 0 ++ u32le mBad.length ++ mBad := by decide

/-- C6.  Every execution of pgtsq_store_row either never acquires the
Log Store lock (the early palloc-failure return) or acquires it
exactly once and releases it exactly once, on every path: the
successful write, the capacity drop, the open failure and every
short write. -/
theorem c6_lock_released_on_all_paths (env : StoreEnv)
    (compressOut : Option (List Nat)) (file row : List Nat)
    (compression : Bool) (max_file_size_kb : Int) :
    (pgtsq_store_row env compressOut file row compression
        max_file_size_kb).locks = [] ∨
    (pgtsq_store_row env compressOut file row compression
        max_file_size_kb).locks = [LockEv.acqExcl, LockEv.rel] := by
  unfold pgtsq_store_row
  split_ifs <;> simp

/-- C8.  Truncating the storage file and immediately reading it back with
no intervening append yields no rows, for every starting file state;
the scan of the emptied file ends at clean EOF. -/
theorem c8_truncate_then_read_empty (O : MemEnv)
    (tsAccept : List Nat → Bool)
    (decomp : List Nat → Nat → Option (List Nat)) (file : List Nat) :
    (pg_track_slow_queries_internal O tsAccept decomp
        (pgtsq_truncate_file true file).file).rows = [] ∧
    (pg_track_slow_queries_internal O tsAccept decomp
        (pgtsq_truncate_file true file).file).stop = ScanEnd.cleanEof :=
  ⟨rfl, rfl⟩

/-- A u32 frame header field occupies four bytes. -/
theorem u32le_length (n : Nat) : (u32le n).length = 4 := rfl

/-- The payload written by pgtsq_store_row never exceeds the payload part
of the `row_size` the capacity check accounts for. -/
theorem storePayload_length_le (compressOut : Option (List Nat))
    (compression : Bool) (row : List Nat) :
    ((storePayload compressOut compression row).length : Int) ≤
      storeRowSize compressOut compression row - 8 := by
  rcases compressOut with _ | c
  · cases compression <;> simp [storePayload, storeRowSize, storeBuffSize]
  · cases compression
    · simp [storePayload, storeRowSize, storeBuffSize]
    · by_cases hU : c.length = UINT32_MAX
      · simp [storePayload, storeRowSize, storeBuffSize, hU]
      · by_cases h0 : c.length = 0
        · simp [storePayload, storeRowSize, storeBuffSize, hU, h0]
        · simp [storePayload, storeRowSize, storeBuffSize, hU, h0,
            Nat.pos_of_ne_zero h0]

/-- Every frame accounts for its 8-byte header. -/
theorem storeRowSize_ge_8 (compressOut : Option (List Nat))
    (compression : Bool) (row : List Nat) :
    8 ≤ storeRowSize compressOut compression row := by
  unfold storeRowSize
  split <;> omega

/-- One pgtsq_store_row call preserves the size cap: if the file is
within `max_file_size_kb * 1024` bytes before the call, it is within
the cap after it, whatever the I/O outcomes. -/
theorem store_row_le_cap (env : StoreEnv) (compressOut : Option (List Nat))
    (row : List Nat) (compression : Bool) (N : Int) (file : List Nat)
    (hN : 0 ≤ N) (h : (file.length : Int) ≤ N * 1024) :
    ((pgtsq_store_row env compressOut file row compression N).file.length :
        Int) ≤ N * 1024 := by
  have hps := storePayload_length_le compressOut compression row
  have hrs := storeRowSize_ge_8 compressOut compression row
  unfold pgtsq_store_row
  split_ifs with h1 h2 h3 h4 h5 h6 <;>
    simp only [List.length_append, List.length_take, u32le_length] <;>
    push_cast <;>
    omega

/-- C2.  With a configured cap `N = max_file_size_kb` (the code compares
against `max_file_size_kb * 1024` bytes): first, after any sequence of
Append calls starting from a file within the cap, the file size never
exceeds the cap, whatever each call's I/O outcomes, compression flag
and compression result; second, a single Append whose frame (8-byte
header plus payload) would push the size past the cap leaves the file
unchanged, logs the drop, and returns the `(uint32) -1` sentinel
instead of writing. -/
theorem c2_size_cap :
    (∀ (N : Int) (calls : List CallSpec) (file : List Nat), 0 ≤ N →
      (file.length : Int) ≤ N * 1024 →
      ((appendMany N calls file).length : Int) ≤ N * 1024) ∧
    (∀ (N : Int) (env : StoreEnv) (compressOut : Option (List Nat))
        (row file : List Nat) (compression : Bool), 0 ≤ N →
      env.allocOk = true → env.openOk = true →
      N * 1024 < (file.length : Int) + storeRowSize compressOut compression row →
      (pgtsq_store_row env compressOut file row compression N).file = file ∧
      (pgtsq_store_row env compressOut file row compression N).ret = UINT32_MAX ∧
      (pgtsq_store_row env compressOut file row compression N).logs
        = [LogEv.maxFileSize]) := by
  constructor
  · intro N calls
    induction calls with
    | nil => intro file _ h; simpa [appendMany] using h
    | cons c cs ih =>
      intro file hN h
      simp only [appendMany, List.foldl_cons]
      have := store_row_le_cap c.env c.compressOut c.row c.compression N file hN h
      simpa [appendMany] using ih _ hN this
  · intro N env compressOut row file compression hN halloc hopen hgt
    have hc : N ≠ -1 ∧
        (file.length : Int) + storeRowSize compressOut compression row >
          N * 1024 := ⟨by omega, hgt⟩
    simp [pgtsq_store_row, halloc, hopen, hc]

/-- Witness for C2 at a concrete instance: cap 0, one uncompressed append
of a 1-byte row onto the empty file; the sequence leaves the file
within the cap, and the single over-cap call leaves the file
unchanged, returns the sentinel and logs the drop. -/
theorem c2_size_cap_witness :
    ((appendMany 0 [demoCall] []).length : Int) ≤ 0 * 1024 ∧
    ((pgtsq_store_row envOk none [] [65] false 0).file = [] ∧
     (pgtsq_store_row envOk none [] [65] false 0).ret = UINT32_MAX ∧
     (pgtsq_store_row envOk none [] [65] false 0).logs
       = [LogEv.maxFileSize]) :=
  ⟨c2_size_cap.1 0 [demoCall] [] (by decide) (by decide),
   c2_size_cap.2 0 envOk none [65] [] false (by decide) (by decide) (by decide)
     (by decide)⟩

/-- C5.  First part: when compression is enabled but pglz_compress
reports no size reduction (it returns -1, modelled as `none`), the
frame written by a successful pgtsq_store_row has compressed_length 0
and its payload is exactly the raw row of `raw_length` bytes, and the
call returns 0.  Second part: in a successfully written compressed
frame the raw_length field is written just the same, between the
compressed length and the payload. -/
theorem c5_no_gain_stored_raw :
    (∀ (env : StoreEnv) (file row : List Nat) (N : Int),
      env.allocOk = true → env.openOk = true →
      env.w1.ok = true → env.w2.ok = true → env.w3.ok = true →
      (N = -1 ∨
        (file.length : Int) + storeRowSize none true row ≤ N * 1024) →
      (pgtsq_store_row env none file row true N).file
        = file ++ u32le 0 ++ u32le (row.length % 2 ^ 32) ++ row ∧
      (pgtsq_store_row env none file row true N).ret = 0) ∧
    (∀ (env : StoreEnv) (file row c : List Nat) (N : Int),
      0 < c.length → c.length ≠ UINT32_MAX →
      env.allocOk = true → env.openOk = true →
      env.w1.ok = true → env.w2.ok = true → env.w3.ok = true →
      (N = -1 ∨
        (file.length : Int) + storeRowSize (some c) true row ≤ N * 1024) →
      (pgtsq_store_row env (some c) file row true N).file
        = file ++ u32le c.length ++ u32le (row.length % 2 ^ 32) ++ c ∧
      (pgtsq_store_row env (some c) file row true N).ret = c.length) := by
  constructor
  · intro env file row N halloc hopen hw1 hw2 hw3 hcap
    have hc : ¬(N ≠ -1 ∧
        (file.length : Int) + storeRowSize none true row > N * 1024) := by
      rcases hcap with h | h
      · exact fun hx => hx.1 h
      · exact fun hx => absurd h (by omega)
    simp [pgtsq_store_row, halloc, hopen, hw1, hw2, hw3, hc,
      storePayload, storeBuffSize]
  · intro env file row c N h0 hU halloc hopen hw1 hw2 hw3 hcap
    have hc : ¬(N ≠ -1 ∧
        (file.length : Int) + storeRowSize (some c) true row > N * 1024) := by
      rcases hcap with h | h
      · exact fun hx => hx.1 h
      · exact fun hx => absurd h (by omega)
    simp [pgtsq_store_row, halloc, hopen, hw1, hw2, hw3, hc,
      storePayload, storeBuffSize, hU, Nat.pos_iff_ne_zero.mp h0]

/-- Witness for C5 at a concrete instance: the incompressible 2-byte row
"AA" is stored raw with a zero compressed length, and a compressed
frame for the same row still records raw_length 2. -/
theorem c5_no_gain_stored_raw_witness :
    ((pgtsq_store_row envOk none [] [65, 65] true (-1)).file
        = [] ++ u32le 0 ++ u32le ([65, 65].length % 2 ^ 32) ++ [65, 65] ∧
      (pgtsq_store_row envOk none [] [65, 65] true (-1)).ret = 0) ∧
    ((pgtsq_store_row envOk (some [66]) [] [65, 65] true (-1)).file
        = [] ++ u32le [66].length ++ u32le ([65, 65].length % 2 ^ 32) ++ [66] ∧
      (pgtsq_store_row envOk (some [66]) [] [65, 65] true (-1)).ret
        = [66].length) :=
  ⟨c5_no_gain_stored_raw.1 envOk [] [65, 65] (-1) rfl rfl rfl rfl rfl
      (Or.inl rfl),
   c5_no_gain_stored_raw.2 envOk [] [65, 65] [66] (-1) (by decide) (by decide)
      rfl rfl rfl rfl rfl (Or.inl rfl)⟩

/-- The drain burst emits no `select` event. -/
theorem drain_all_not_sel (O : MemEnv) :
    ∀ (msgs : List (List Nat)) (sigAt : Option Nat),
      (pgtsq_worker_drain O msgs sigAt).all (fun e => !(isSel e)) = true := by
  intro msgs
  induction msgs with
  | nil => intro sigAt; cases sigAt <;> simp [pgtsq_worker_drain, isSel]
  | cons m rest ih =>
    intro sigAt
    simp only [pgtsq_worker_drain, List.all_append, List.all_cons]
    split_ifs <;> simp_all [isSel] <;> exact ih _

/-- With no pending signal the drain burst emits no `sigterm` event. -/
theorem drain_none_no_sig (O : MemEnv) :
    ∀ msgs : List (List Nat),
      (pgtsq_worker_drain O msgs none).all (fun e => !(isSig e)) = true := by
  intro msgs
  induction msgs with
  | nil => simp [pgtsq_worker_drain]
  | cons m rest ih =>
    simp only [pgtsq_worker_drain, List.all_append, List.all_cons]
    split_ifs <;> simp_all [isSig, sigDec]

/-- A prefix free of `sigterm` events does not affect the
no-select-after-sigterm check. -/
theorem noSelAfterSig_append_of_no_sig :
    ∀ l1 l2 : List WEv, l1.all (fun e => !(isSig e)) = true →
      noSelAfterSig (l1 ++ l2) = noSelAfterSig l2 := by
  intro l1
  induction l1 with
  | nil => intro l2 _; rfl
  | cons e t ih =>
    intro l2 h
    simp only [List.all_cons, Bool.and_eq_true] at h
    cases e <;> simp_all [noSelAfterSig, isSig]

/-- A trace with no `select` event at all passes the
no-select-after-sigterm check. -/
theorem noSelAfterSig_of_all_not_sel :
    ∀ l : List WEv, l.all (fun e => !(isSel e)) = true →
      noSelAfterSig l = true := by
  intro l
  induction l with
  | nil => intro _; rfl
  | cons e t ih =>
    intro h
    simp only [List.all_cons, Bool.and_eq_true] at h
    cases e <;> simp_all [noSelAfterSig, isSel]

/-- Once the flag is observed, the loop emits only the exit event. -/
theorem worker_run_flagged (O : MemEnv) (sched : List WRound) :
    pgtsq_worker_run O sched true = [WEv.exit] := by
  cases sched <;> rfl

/-- After the first `sigterm` event of any worker trace, no `select`
event — no new wait-for-readability round — ever occurs. -/
theorem worker_run_noSel (O : MemEnv) :
    ∀ (sched : List WRound) (flag : Bool),
      noSelAfterSig (pgtsq_worker_run O sched flag) = true := by
  intro sched
  induction sched with
  | nil => intro flag; cases flag <;> rfl
  | cons r rest ih =>
    intro flag
    cases flag
    case true => rfl
    case false =>
      cases r with
      | timeout =>
        simpa [pgtsq_worker_run, noSelAfterSig] using ih false
      | sigDuringSelect =>
        simp [pgtsq_worker_run, noSelAfterSig, worker_run_flagged, isSel]
      | ready msgs sigAt =>
        cases sigAt with
        | none =>
          have h2 := noSelAfterSig_append_of_no_sig
            (pgtsq_worker_drain O msgs none)
            (pgtsq_worker_run O rest false) (drain_none_no_sig O msgs)
          simp only [pgtsq_worker_run, noSelAfterSig, roundSetsFlag,
            Option.isSome_none]
          rw [h2]
          exact ih false
        | some k =>
          simp only [pgtsq_worker_run, noSelAfterSig, roundSetsFlag,
            Option.isSome_some, worker_run_flagged]
          apply noSelAfterSig_of_all_not_sel
          simp only [List.all_append, drain_all_not_sel O msgs (some k),
            Bool.true_and]
          rfl

/-- C9 counterexample.  SIGTERM is delivered after select has returned
readable, just before the first recv of the drain burst: although
`got_sigterm` is already set and no store operation is in progress,
the worker still receives and stores both queued datagrams, because
the inner `while ((n = recv(...)) > 0)` loop never consults the flag.
The claim's assertion that no additional queued datagram is received
or stored after the flag is set is therefore false. -/
theorem c9_counterexample :
    pgtsq_worker_run memEnv0 sched0 false
      = [WEv.select, WEv.sigterm, WEv.recvMsg [49], WEv.storeRow [49],
         WEv.recvMsg [50], WEv.storeRow [50], WEv.exit] ∧
    (eventsAfterSigterm
        (pgtsq_worker_run memEnv0 sched0 false)).countP isRecv = 2 := by
  decide

/-- C9 amended.  After the termination flag is set, the worker never
begins a new wait-for-readability round — no `select` event follows
the first `sigterm` event in any schedule — and a loop iteration that
observes the flag exits immediately; however, a drain burst that was
already in progress when the flag was set still receives and stores
every datagram remaining in the queue before the loop exits. -/
theorem c9_no_new_round_after_sigterm (O : MemEnv) (sched : List WRound)
    (flag : Bool) :
    noSelAfterSig (pgtsq_worker_run O sched flag) = true ∧
    pgtsq_worker_run O sched true = [WEv.exit] :=
  ⟨worker_run_noSel O sched flag, worker_run_flagged O sched⟩

/-- The switch of pgtsq_parse_row leaves plantxt untouched for every
column number other than the unreachable 10. -/
theorem assignCol_plantxt (c : Nat) (d : List Nat) (e : TSQEntry)
    (hc : c ≠ 10) : (assignCol c d e).plantxt = e.plantxt := by
  rcases c with _ | _ | _ | _ | _ | _ | _ | _ | _ | _ | _ | c <;>
    simp_all [assignCol]

/-- Through the whole parse loop, plantxt keeps its initial value: the
column counter never reaches 10. -/
theorem parseRowGo_plantxt (O : MemEnv) (row : List Nat) :
    ∀ (rem c p : Nat) (e : TSQEntry) (ob : Bool), c + rem ≤ 10 →
      (parseRowGo O row rem c p e ob).entry.plantxt = e.plantxt := by
  intro rem
  induction rem with
  | zero => intro c p e ob h; rfl
  | succ n ih =>
    intro c p e ob h
    simp only [parseRowGo, caller_item_is_null, if_false, Bool.false_eq_true]
    rw [ih (c + 1) _ _ _ (by omega), assignCol_plantxt c _ e (by omega)]

/-- pgtsq_parse_row never assigns plantxt: the loop stops at
`TSQ_COLS = 9`, before the switch's case 10, so the field keeps the
NULL that palloc0 gave it. -/
theorem pgtsq_parse_row_plantxt (O : MemEnv) (row : List Nat) :
    (pgtsq_parse_row O row).entry.plantxt = none := by
  simp only [pgtsq_parse_row, palloc_fails, if_false, Bool.false_eq_true]
  rw [parseRowGo_plantxt O row TSQ_COLS 1 0 tsqEntry0 false (by decide)]
  rfl

/-- An entry whose plantxt is NULL never projects successfully: the
projection either raises the timestamptz_in error earlier or reaches
CStringGetTextDatum(plantxt) and crashes. -/
theorem projectEntry_ne_ok (tsAccept : List Nat → Bool) (e : TSQEntry)
    (h : e.plantxt = none) : projectEntry tsAccept e ≠ ProjRes.ok := by
  intro hok
  unfold projectEntry at hok
  rcases hdt : e.datetime with _ | dt <;> rw [hdt] at hok
  · simp at hok
  · by_cases hts : tsAccept dt
    · simp only [hts, if_true] at hok
      rcases hun : e.username with _ | un <;> rw [hun] at hok
      · simp at hok
      · rcases hdb : e.dbname with _ | db <;> rw [hdb] at hok
        · simp at hok
        · rcases hq : e.querytxt with _ | q <;> rw [hq] at hok
          · simp at hok
          · rw [h] at hok
            simp at hok
    · simp [hts] at hok

/-- The scan loop never materializes a row: every decoded entry has a
NULL plantxt, so its projection aborts before tuplestore_putvalues. -/
theorem readLoop_rows (O : MemEnv) (tsAccept : List Nat → Bool)
    (decomp : List Nat → Nat → Option (List Nat)) :
    ∀ (fuel : Nat) (rem : List Nat) (acc : List TSQEntry),
      (readLoop O tsAccept decomp fuel rem acc).1 = acc.reverse := by
  intro fuel
  induction fuel with
  | zero => intro rem acc; rfl
  | succ f ih =>
    intro rem acc
    simp only [readLoop]
    repeat' split
    all_goals try rfl
    all_goals
      rename_i hp
      exact absurd hp (projectEntry_ne_ok tsAccept _ (pgtsq_parse_row_plantxt O _))

/-- C7.  The reader never returns a decoded row, for any storage file:
parsing always succeeds but the projection of the first decoded entry
aborts the function — timestamptz_in raises ereport(ERROR) when it
rejects the decoded datetime text, and otherwise
CStringGetTextDatum(tsqe->plantxt) crashes in strlen(NULL), because
pgtsq_parse_row never assigns plantxt (the TSQ_COLS = 9 slip).  At
the concrete failing input — one complete frame (payload "A")
followed by a 2-byte truncated frame — the scan stops in the first
row's projection with the error or the crash and control never
returns, instead of returning the fully-formed entry together with a
reported error as the claim states; and a file holding only the 1-3
byte truncated tail ends the scan cleanly, with no reported error at
all. -/
theorem c7_reader_never_returns_rows :
    (∀ (O : MemEnv) (tsAccept : List Nat → Bool)
        (decomp : List Nat → Nat → Option (List Nat)) (file : List Nat),
      (pg_track_slow_queries_internal O tsAccept decomp file).rows = []) ∧
    (pg_track_slow_queries_internal memEnv0 tsRejectAll decomp0
        (frameBytes [65] ++ [0, 0])).stop = ScanEnd.datetimeErr ∧
    (pg_track_slow_queries_internal memEnv0 tsRejectAll decomp0
        (frameBytes [65] ++ [0, 0])).returns = false ∧
    (pg_track_slow_queries_internal memEnv0 tsAcceptAll decomp0
        (frameBytes [65] ++ [0, 0])).stop = ScanEnd.nullCrash ∧
    (pg_track_slow_queries_internal memEnv0 tsAcceptAll decomp0
        (frameBytes [65] ++ [0, 0])).returns = false ∧
    (pg_track_slow_queries_internal memEnv0 tsAcceptAll decomp0
        ((frameBytes [66]).take 2)).stop = ScanEnd.cleanEof := by
  refine ⟨?_, by decide, by decide, by decide, by decide, by decide⟩
  intro O tsAccept decomp file
  show (readLoop O tsAccept decomp (file.length + 1) file []).1 = []
  rw [readLoop_rows]
  rfl
